import Mathlib

/-!
Verification of the traefik-modsecurity-plugin verdict-caching forwarding
layer, as a shallow embedding of the Go sources (modsecurity.go,
modesecurity_cache.go, modsecurity_handlers.go, modesecurity_helpers.go).

Conventions of the embedding:
* Go byte strings are `List Nat` (each element a byte value below 256);
  Lean `String` values are converted through an explicit UTF-8 encoder.
* The SHA-256 digest used by generateCacheKey is implemented in full, so
  equalities and inequalities between cache keys are decided by genuine
  computation rather than by an abstract hash model.
* Go maps (`http.Header`, the cache, `url.Values`) are association lists;
  the iteration order of a Go map is unspecified, which the embedding makes
  explicit by letting the association list carry an arbitrary order.
* The stateful parts (go-cache store, sync.Pool of responses, calls to the
  remote evaluation service) are explicit state passed through the
  functions.  The outbound HTTP call is abstracted by a per-call oracle
  value of type `Except Unit HttpResponse`.
-/

namespace ModsecPlugin

/-! ### Bytes, UTF-8 and hexadecimal rendering -/

/-- UTF-8 encoding of a single character, as the list of its bytes. -/
def charUtf8 (c : Char) : List Nat :=
  let n := c.toNat
  if n < 0x80 then [n]
  else if n < 0x800 then [0xc0 ||| (n >>> 6), 0x80 ||| (n &&& 0x3f)]
  else if n < 0x10000 then
    [0xe0 ||| (n >>> 12), 0x80 ||| ((n >>> 6) &&& 0x3f), 0x80 ||| (n &&& 0x3f)]
  else
    [0xf0 ||| (n >>> 18), 0x80 ||| ((n >>> 12) &&& 0x3f),
     0x80 ||| ((n >>> 6) &&& 0x3f), 0x80 ||| (n &&& 0x3f)]

/-- UTF-8 bytes of a string (Go strings are byte strings; all strings the
plugin hashes are the UTF-8 bytes of the request attributes). -/
def utf8Bytes (s : String) : List Nat :=
  s.data.flatMap charUtf8

/-- Lowercase hexadecimal digit. -/
def hexDigit (n : Nat) : Char :=
  if n < 10 then Char.ofNat (48 + n) else Char.ofNat (87 + n)

/-- Render a byte list as a lowercase hexadecimal string, as Go fmt `%x`. -/
def hexString (bs : List Nat) : String :=
  String.mk (bs.flatMap (fun b => [hexDigit (b / 16), hexDigit (b % 16)]))

/-! ### SHA-256 (crypto/sha256), executable over `Nat` with explicit mod 2^32 -/

def w32 : Nat := 4294967296

/-- Rotate a 32-bit word right by `n`. -/
def rotr (n x : Nat) : Nat := ((x >>> n) ||| (x <<< (32 - n))) % w32

def smallSigma0 (x : Nat) : Nat := (rotr 7 x) ^^^ (rotr 18 x) ^^^ (x >>> 3)

def smallSigma1 (x : Nat) : Nat := (rotr 17 x) ^^^ (rotr 19 x) ^^^ (x >>> 10)

def bigSigma0 (x : Nat) : Nat := (rotr 2 x) ^^^ (rotr 13 x) ^^^ (rotr 22 x)

def bigSigma1 (x : Nat) : Nat := (rotr 6 x) ^^^ (rotr 11 x) ^^^ (rotr 25 x)

def chFn (x y z : Nat) : Nat := (x &&& y) ^^^ ((x ^^^ 0xffffffff) &&& z)

def majFn (x y z : Nat) : Nat := (x &&& y) ^^^ (x &&& z) ^^^ (y &&& z)

def sha256K : List Nat :=
  [1116352408, 1899447441, 3049323471, 3921009573, 961987163,
   1508970993, 2453635748, 2870763221, 3624381080, 310598401,
   607225278, 1426881987, 1925078388, 2162078206, 2614888103,
   3248222580, 3835390401, 4022224774, 264347078, 604807628,
   770255983, 1249150122, 1555081692, 1996064986, 2554220882,
   2821834349, 2952996808, 3210313671, 3336571891, 3584528711,
   113926993, 338241895, 666307205, 773529912, 1294757372,
   1396182291, 1695183700, 1986661051, 2177026350, 2456956037,
   2730485921, 2820302411, 3259730800, 3345764771, 3516065817,
   3600352804, 4094571909, 275423344, 430227734, 506948616,
   659060556, 883997877, 958139571, 1322822218, 1537002063,
   1747873779, 1955562222, 2024104815, 2227730452, 2361852424,
   2428436474, 2756734187, 3204031479, 3329325298]

def sha256InitH : List Nat :=
  [1779033703, 3144134277, 1013904242, 2773480762, 1359893119,
   2600822924, 528734635, 1541459225]

/-- SHA-256 padding: append 0x80, zero bytes up to 56 mod 64, then the
bit length as 8 big-endian bytes. -/
def padMessage (msg : List Nat) : List Nat :=
  let len := msg.length
  let bitLen := len * 8
  let zeros := (119 - len % 64) % 64
  msg ++ [0x80] ++ List.replicate zeros 0 ++
    (List.range 8).map (fun i => (bitLen >>> ((7 - i) * 8)) % 256)

/-- Group bytes into big-endian 32-bit words. -/
def toWords : List Nat → List Nat
  | a :: b :: c :: d :: rest => (((a * 256 + b) * 256 + c) * 256 + d) :: toWords rest
  | _ => []

/-- Split a word list into 16-word blocks (fuel-based structural recursion
so that the kernel can evaluate it). -/
def chunkBlocksAux : Nat → List Nat → List (List Nat)
  | 0, _ => []
  | _, [] => []
  | fuel + 1, ws => ws.take 16 :: chunkBlocksAux fuel (ws.drop 16)

def chunkBlocks (ws : List Nat) : List (List Nat) :=
  chunkBlocksAux ws.length ws

/-- Message schedule: extend a 16-word block to the 64-word schedule. -/
def schedule (block : List Nat) : List Nat :=
  (List.range 48).foldl
    (fun w _ =>
      let n := w.length
      w ++ [(smallSigma1 (w.getD (n - 2) 0) + w.getD (n - 7) 0 +
             smallSigma0 (w.getD (n - 15) 0) + w.getD (n - 16) 0) % w32])
    block

/-- One SHA-256 compression round step on the 8-word working state. -/
def roundStep (w : List Nat) (s : List Nat) (t : Nat) : List Nat :=
  match s with
  | [a, b, c, d, e, f, g, h] =>
    let t1 := (h + bigSigma1 e + chFn e f g + sha256K.getD t 0 + w.getD t 0) % w32
    let t2 := (bigSigma0 a + majFn a b c) % w32
    [(t1 + t2) % w32, a, b, c, (d + t1) % w32, e, f, g]
  | s => s

/-- Compress one 16-word block into the running hash state. -/
def compressBlock (hs : List Nat) (block : List Nat) : List Nat :=
  let w := schedule block
  let s := (List.range 64).foldl (roundStep w) hs
  (hs.zip s).map (fun p => (p.1 + p.2) % w32)

/-- Full SHA-256: bytes in, 32 digest bytes out. -/
def sha256 (msg : List Nat) : List Nat :=
  let blocks := chunkBlocks (toWords (padMessage msg))
  let h := blocks.foldl compressBlock sha256InitH
  h.flatMap (fun x => [(x >>> 24) % 256, (x >>> 16) % 256, (x >>> 8) % 256, x % 256])

/-! ### Go net/url subset used by removeTrackingParams

removeTrackingParams (modesecurity_helpers.go) calls url.Parse, URL.Query,
Values.Del, Values.Encode and URL.String.  The embedding models the library
exactly on origin-form request URIs — the shape RequestURI takes for
ordinary (non-proxy) HTTP requests: a path starting with a single slash
(or three or more slashes), optionally followed by a query and a fragment.
On that subset Go's parse performs no scheme or authority processing, and
its only failure modes are an ASCII control byte before the fragment or a
malformed percent escape in the path or fragment; URL.String rebuilds the
URL as EscapedPath ++ query ++ EscapedFragment, all of which is
implemented below on bytes, including the canonical re-escaping that
EscapedPath and EscapedFragment apply when the raw component is not a
valid encoding.  Query parsing, key deletion and re-encoding (byte-wise
sorted keys, QueryEscape percent-encoding) are implemented in full.
URLs outside the subset (absolute form with a scheme, protocol-relative
authority forms, a bare asterisk) go through scheme and host validation
and normalization in Go that this model does not reproduce; the model
treats them as parse failures, so removeTrackingParams leaves them
unchanged, and the theorems about URL normalization carry urlParseOk
hypotheses confining them to the modeled subset. -/

/-- Split a string at the first occurrence of a character; the second
component is none when the character does not occur. -/
def splitOnFirst (c : Char) (s : String) : String × Option String :=
  match s.data.dropWhile (fun x => x != c) with
  | [] => (String.mk (s.data.takeWhile (fun x => x != c)), none)
  | _ :: rest => (String.mk (s.data.takeWhile (fun x => x != c)), some (String.mk rest))

/-- ASCII control byte check of net/url (b < 0x20 or b = 0x7f). -/
def noCTL (s : String) : Bool :=
  s.data.all (fun ch => 0x20 ≤ ch.toNat && ch.toNat != 0x7f)

def isHexByte (b : Nat) : Bool :=
  (48 ≤ b && b ≤ 57) || (97 ≤ b && b ≤ 102) || (65 ≤ b && b ≤ 70)

/-- Every percent sign is followed by two hexadecimal digits. -/
def validPercentBytes : List Nat → Bool
  | [] => true
  | 37 :: a :: b :: rest => isHexByte a && isHexByte b && validPercentBytes rest
  | 37 :: _ => false
  | _ :: rest => validPercentBytes rest

def validPercent (s : String) : Bool := validPercentBytes (utf8Bytes s)

/-- Origin-form request target: a path beginning with a single slash.  A
double slash would make Go parse an authority (host) component, with its
own validation and normalization; three or more leading slashes are again
a plain path for Go.  Anything else (absolute form with a scheme, a bare
asterisk, an empty string) is outside the modeled subset. -/
def isOriginForm (u : String) : Bool :=
  match u.data with
  | '/' :: '/' :: '/' :: _ => true
  | '/' :: '/' :: _ => false
  | '/' :: _ => true
  | _ => false

/-- Whether url.Parse succeeds on the input, on the modeled origin-form
subset where this is exact: no control byte before the fragment (Go
checks the URL with the fragment already detached; a control byte inside
the fragment is accepted and later re-escaped), and well-formed percent
escapes in path and fragment.  The raw query is not validated by Parse;
malformed query pairs are dropped later by Query.  URLs outside the
subset are conservatively reported as failures (see the section
comment). -/
def urlParseOk (u : String) : Bool :=
  let beforeFrag := (splitOnFirst '#' u).1
  let frag := ((splitOnFirst '#' u).2).getD ""
  let rawPath := (splitOnFirst '?' beforeFrag).1
  isOriginForm u && noCTL beforeFrag && validPercent rawPath && validPercent frag

def hexVal (b : Nat) : Option Nat :=
  if 48 ≤ b && b ≤ 57 then some (b - 48)
  else if 97 ≤ b && b ≤ 102 then some (b - 87)
  else if 65 ≤ b && b ≤ 70 then some (b - 55)
  else none

/-- Go url.QueryUnescape on bytes: plus becomes space, percent escapes are
decoded, any malformed escape fails. -/
def unescapeQuery : List Nat → Option (List Nat)
  | [] => some []
  | 37 :: rest =>
    match rest with
    | a :: b :: rest2 =>
      match hexVal a, hexVal b with
      | some x, some y => (unescapeQuery rest2).map (fun t => (16 * x + y) :: t)
      | _, _ => none
    | _ => none
  | 43 :: rest => (unescapeQuery rest).map (fun t => 32 :: t)
  | c :: rest => (unescapeQuery rest).map (fun t => c :: t)

/-- Unreserved bytes of Go url.QueryEscape (letters, digits, `-`, `.`,
`_`, `~`). -/
def isUnreservedQuery (b : Nat) : Bool :=
  (65 ≤ b && b ≤ 90) || (97 ≤ b && b ≤ 122) || (48 ≤ b && b ≤ 57) ||
    b == 45 || b == 46 || b == 95 || b == 126

def hexUpper (n : Nat) : Nat := if n < 10 then 48 + n else 55 + n

/-- Go url.QueryEscape on bytes: space becomes plus, unreserved bytes stay,
everything else becomes an uppercase percent escape. -/
def queryEscape (bs : List Nat) : List Nat :=
  bs.flatMap (fun b =>
    if isUnreservedQuery b then [b]
    else if b == 32 then [43]
    else [37, hexUpper (b / 16), hexUpper (b % 16)])

/-- Go shouldEscape in path mode: bytes kept verbatim by escape are the
alphanumerics, the marks `-`, `_`, `.`, `~`, and `$ & + , / : ; = @`
(everything else, including the question mark and all bytes at 0x80 and
above, is percent-escaped). -/
def shouldEscapePath (b : Nat) : Bool :=
  !((65 ≤ b && b ≤ 90) || (97 ≤ b && b ≤ 122) || (48 ≤ b && b ≤ 57) ||
    b == 45 || b == 95 || b == 46 || b == 126 ||
    b == 36 || b == 38 || b == 43 || b == 44 || b == 47 || b == 58 ||
    b == 59 || b == 61 || b == 64)

/-- Go shouldEscape in fragment mode: as the path set, plus `?` and the
sub-delims `! ( ) *` are kept verbatim. -/
def shouldEscapeFrag (b : Nat) : Bool :=
  !((65 ≤ b && b ≤ 90) || (97 ≤ b && b ≤ 122) || (48 ≤ b && b ≤ 57) ||
    b == 45 || b == 95 || b == 46 || b == 126 ||
    b == 36 || b == 38 || b == 43 || b == 44 || b == 47 || b == 58 ||
    b == 59 || b == 61 || b == 64 || b == 63 ||
    b == 33 || b == 40 || b == 41 || b == 42)

/-- The extra bytes Go's validEncoded accepts in any mode:
`! $ & ' ( ) * + , ; = : @ [ ] %`. -/
def validEncodedExtra (b : Nat) : Bool :=
  b == 33 || b == 36 || b == 38 || b == 39 || b == 40 || b == 41 ||
    b == 42 || b == 43 || b == 44 || b == 59 || b == 61 || b == 58 ||
    b == 64 || b == 91 || b == 93 || b == 37

/-- Go validEncoded for the path: every byte is in the extra list or would
not be escaped in path mode. -/
def validEncodedPath (bs : List Nat) : Bool :=
  bs.all (fun b => validEncodedExtra b || !(shouldEscapePath b))

/-- Go validEncoded for the fragment. -/
def validEncodedFrag (bs : List Nat) : Bool :=
  bs.all (fun b => validEncodedExtra b || !(shouldEscapeFrag b))

/-- Go unescape in path or fragment mode on bytes: percent escapes are
decoded (a malformed escape fails); a plus sign stays a plus sign. -/
def unescapePathBytes : List Nat → Option (List Nat)
  | [] => some []
  | 37 :: rest =>
    match rest with
    | a :: b :: rest2 =>
      match hexVal a, hexVal b with
      | some x, some y => (unescapePathBytes rest2).map (fun t => (16 * x + y) :: t)
      | _, _ => none
    | _ => none
  | c :: rest => (unescapePathBytes rest).map (fun t => c :: t)

/-- Go escape in path mode on bytes. -/
def escapePathBytes (bs : List Nat) : List Nat :=
  bs.flatMap (fun b =>
    if shouldEscapePath b then [37, hexUpper (b / 16), hexUpper (b % 16)] else [b])

/-- Go escape in fragment mode on bytes. -/
def escapeFragBytes (bs : List Nat) : List Nat :=
  bs.flatMap (fun b =>
    if shouldEscapeFrag b then [37, hexUpper (b / 16), hexUpper (b % 16)] else [b])

/-- URL.EscapedPath as URL.String sees it for a parsed raw path: when the
raw path is already a valid encoding it is reproduced verbatim (this also
covers the case where Parse kept no RawPath because the path was
canonical), otherwise the decoded path is re-escaped canonically.  The
unescape cannot fail for a path that passed Parse. -/
def escapedPath (bs : List Nat) : List Nat :=
  if validEncodedPath bs then bs
  else
    match unescapePathBytes bs with
    | some decoded => escapePathBytes decoded
    | none => bs

/-- URL.EscapedFragment, analogously. -/
def escapedFragment (bs : List Nat) : List Nat :=
  if validEncodedFrag bs then bs
  else
    match unescapePathBytes bs with
    | some decoded => escapeFragBytes decoded
    | none => bs

/-- Split a byte list on a separator byte (all segments, including empty
ones; empty segments are skipped by the query parser as in Go). -/
def splitByte (sep : Nat) (bs : List Nat) : List (List Nat) :=
  let r := bs.foldl
    (fun (acc : List (List Nat) × List Nat) b =>
      if b == sep then (acc.1 ++ [acc.2], []) else (acc.1, acc.2 ++ [b]))
    ([], [])
  r.1 ++ [r.2]

/-- Go url.ParseQuery as called by URL.Query: cut on ampersands, drop
segments that are empty or contain a semicolon, split each segment at the
first equals sign, unescape key and value, drop the pair if unescaping
fails.  Pairs are returned in order of appearance. -/
def parseQueryPairs (bs : List Nat) : List (List Nat × List Nat) :=
  (splitByte 38 bs).filterMap (fun seg =>
    if seg.contains 59 then none
    else if seg.isEmpty then none
    else
      let key := seg.takeWhile (fun b => b != 61)
      let value := (seg.dropWhile (fun b => b != 61)).drop 1
      match unescapeQuery key, unescapeQuery value with
      | some k, some v => some (k, v)
      | _, _ => none)

/-- Byte-wise lexicographic order used by the sort in Values.Encode. -/
def bytesLe : List Nat → List Nat → Bool
  | [], _ => true
  | _ :: _, [] => false
  | a :: as, b :: bs => if a < b then true else if b < a then false else bytesLe as bs

def insertSorted (x : List Nat) : List (List Nat) → List (List Nat)
  | [] => [x]
  | y :: ys => if bytesLe x y then x :: y :: ys else y :: insertSorted x ys

def sortKeys (ks : List (List Nat)) : List (List Nat) :=
  ks.foldr insertSorted []

/-- First-occurrence deduplication of the key list (url.Values is a map,
each key appears once). -/
def dedupKeys (ks : List (List Nat)) : List (List Nat) :=
  ks.foldl (fun acc k => if acc.contains k then acc else acc ++ [k]) []

def asciiString (bs : List Nat) : String :=
  String.mk (bs.map (fun b => Char.ofNat b))

/-- Go url.Values.Encode over the parsed pairs: keys sorted byte-wise, each
key emitted once with all of its values in order of appearance, every key
and value passed through QueryEscape. -/
def encodeQuery (pairs : List (List Nat × List Nat)) : String :=
  let keys := sortKeys (dedupKeys (pairs.map (fun kv => kv.1)))
  let parts := keys.flatMap (fun k =>
    (pairs.filter (fun kv => kv.1 == k)).map (fun kv =>
      asciiString (queryEscape k) ++ "=" ++ asciiString (queryEscape kv.2)))
  String.intercalate "&" parts

/-! ### removeTrackingParams (modesecurity_helpers.go) -/

/-- The built-in tracking-parameter removal set of removeTrackingParams,
verbatim from modesecurity_helpers.go. -/
def trackingParams : List String :=
  ["fbclid", "gclid", "gclsrc", "dclid",
   "utm_content", "utm_term", "utm_campaign", "utm_medium", "utm_source",
   "utm_id", "_ga", "mc_cid", "mc_eid", "_bta_tid", "_bta_c",
   "trk_contact", "trk_msg", "trk_module", "trk_sid",
   "gdfms", "gdftrk", "gdffi", "_ke",
   "redirect_log_mongo_id", "redirect_mongo_id", "sb_referer_host",
   "mkwid", "pcrid", "ef_id", "s_kwcid", "msclkid", "dm_i", "epik",
   "pk_campaign", "pk_kwd", "pk_keyword", "piwik_campaign", "piwik_kwd",
   "piwik_keyword",
   "mtm_campaign", "mtm_keyword", "mtm_source", "mtm_medium", "mtm_content",
   "mtm_cid", "mtm_group", "mtm_placement",
   "matomo_campaign", "matomo_keyword", "matomo_source", "matomo_medium",
   "matomo_content", "matomo_cid", "matomo_group", "matomo_placement",
   "hsa_cam", "hsa_grp", "hsa_mt", "hsa_src", "hsa_ad", "hsa_acc",
   "hsa_net", "hsa_kw", "hsa_tgt", "hsa_ver"]

def trackingParamsBytes : List (List Nat) := trackingParams.map utf8Bytes

/-- The path component of a request URI: everything before the first
question mark, after detaching the fragment. -/
def rawPathOf (u : String) : String :=
  (splitOnFirst '?' (splitOnFirst '#' u).1).1

/-- The raw query of a request URI (none when there is no question mark;
some of the empty string for a bare trailing question mark, which Go
records as ForceQuery). -/
def rawQueryOf (u : String) : Option String :=
  (splitOnFirst '?' (splitOnFirst '#' u).1).2

/-- The raw fragment of a request URI. -/
def fragOf (u : String) : Option String :=
  (splitOnFirst '#' u).2

/-- The query pairs that survive the Del loop of removeTrackingParams:
every pair whose (decoded) key is a tracking parameter is removed. -/
def keptPairs (u : String) : List (List Nat × List Nat) :=
  (parseQueryPairs (utf8Bytes ((rawQueryOf u).getD ""))).filter
    (fun kv => !(trackingParamsBytes.contains kv.1))

/-- removeTrackingParams: parse the URL, delete every tracking parameter
from the query map, re-encode the query, and serialize the URL again;
on parse failure the input is returned unchanged (fail-open).  The path
and fragment are serialized through EscapedPath and EscapedFragment; the
question mark survives serialization when the re-encoded query is
non-empty, or when the original URL ended in a bare question mark
(Go's ForceQuery); an empty fragment is dropped by URL.String. -/
def removeTrackingParams (inputURL : String) : String :=
  if urlParseOk inputURL then
    let enc := encodeQuery (keptPairs inputURL)
    asciiString (escapedPath (utf8Bytes (rawPathOf inputURL))) ++
      (if enc != "" || rawQueryOf inputURL == some "" then "?" ++ enc else "") ++
      (match fragOf inputURL with
       | some f =>
         if f != "" then "#" ++ asciiString (escapedFragment (utf8Bytes f)) else ""
       | none => "")
  else inputURL

/-! ### Data model (modsecurity.go, modesecurity_cache.go)

Go pointer-to-bool optional fields become `Option Bool`; `ptr != nil &&
*ptr` becomes `optTrue`.  An HTTP header map is an association list whose
order records the (unspecified) iteration order of the Go map. -/

def optTrue : Option Bool → Bool
  | some b => b
  | none => false

structure CacheKeyConditions where
  Methods : List String
  NoBody : Option Bool
deriving DecidableEq

structure CacheKeyOptions where
  IncludeMethod : Option Bool
  IncludeRequestURI : Option Bool
  IncludeHeaders : Option Bool
  Headers : List String
  MatchAllHeaders : Option Bool
  IncludeHost : Option Bool
  IncludeRemoteAddress : Option Bool
deriving DecidableEq

structure Config where
  TimeoutMillis : Int
  ModSecurityUrl : String
  MaxBodySize : Int
  CacheEnabled : Option Bool
  CacheConditions : CacheKeyConditions
  CacheKey : CacheKeyOptions
deriving DecidableEq

/-- CreateConfig (modsecurity.go): the documented defaults. -/
def CreateConfig : Config where
  TimeoutMillis := 2000
  ModSecurityUrl := ""
  MaxBodySize := 10 * 1024 * 1024
  CacheEnabled := some true
  CacheConditions := { Methods := ["GET"], NoBody := some true }
  CacheKey :=
    { IncludeMethod := some true
      IncludeRequestURI := some true
      IncludeHeaders := some false
      Headers := ["Authorization", "User-Agent", "Cache-Control"]
      MatchAllHeaders := some false
      IncludeHost := some true
      IncludeRemoteAddress := some false }

/-- The fields of *http.Request read by the plugin.  `header` is the header
map with its iteration order made explicit; `contentLength` is the
declared ContentLength; `body` is the byte stream of the request body. -/
structure HttpRequest where
  method : String
  requestURI : String
  header : List (String × List String)
  host : String
  remoteAddr : String
  contentLength : Int
  body : List Nat
deriving DecidableEq

/-- The fields of *http.Response the plugin reads or synthesizes.  `body`
is the full byte content readable from Body, as a string. -/
structure HttpResponse where
  statusCode : Nat
  header : List (String × List String)
  body : String
deriving DecidableEq

/-- Go map lookup on a header association list: values of the first entry
with the given key (a Go map has at most one). -/
def headerValues (hs : List (String × List String)) (k : String) : List String :=
  match hs.find? (fun e => e.1 == k) with
  | some e => e.2
  | none => []

/-- Go Header.Set: replace all values of the key by the single value. -/
def headerSet (hs : List (String × List String)) (k v : String) :
    List (String × List String) :=
  (k, [v]) :: hs.filter (fun e => !(e.1 == k))

/-- contains (modesecurity_helpers.go). -/
def containsStr (methods : List String) (method : String) : Bool :=
  methods.any (fun m => m == method)

/-- isWebsocket (modesecurity_helpers.go): some value of the Upgrade
header equals the lowercase string websocket. -/
def isWebsocket (req : HttpRequest) : Bool :=
  (headerValues req.header "Upgrade").any (fun h => h == "websocket")

/-- CacheKeyConditions.Check (modesecurity_cache.go). -/
def CacheKeyConditions.Check (c : CacheKeyConditions) (req : HttpRequest) : Bool :=
  if 0 < c.Methods.length && !(containsStr c.Methods req.method) then false
  else if (match c.NoBody with
           | some nb => nb != decide (req.contentLength = 0)
           | none => false) then false
  else true

/-- http.StatusText of net/http, verbatim from the Go standard library. -/
def statusText (code : Nat) : String :=
  match code with
  | 100 => "Continue"
  | 101 => "Switching Protocols"
  | 102 => "Processing"
  | 103 => "Early Hints"
  | 200 => "OK"
  | 201 => "Created"
  | 202 => "Accepted"
  | 203 => "Non-Authoritative Information"
  | 204 => "No Content"
  | 205 => "Reset Content"
  | 206 => "Partial Content"
  | 207 => "Multi-Status"
  | 208 => "Already Reported"
  | 226 => "IM Used"
  | 300 => "Multiple Choices"
  | 301 => "Moved Permanently"
  | 302 => "Found"
  | 303 => "See Other"
  | 304 => "Not Modified"
  | 305 => "Use Proxy"
  | 307 => "Temporary Redirect"
  | 308 => "Permanent Redirect"
  | 400 => "Bad Request"
  | 401 => "Unauthorized"
  | 402 => "Payment Required"
  | 403 => "Forbidden"
  | 404 => "Not Found"
  | 405 => "Method Not Allowed"
  | 406 => "Not Acceptable"
  | 407 => "Proxy Authentication Required"
  | 408 => "Request Timeout"
  | 409 => "Conflict"
  | 410 => "Gone"
  | 411 => "Length Required"
  | 412 => "Precondition Failed"
  | 413 => "Request Entity Too Large"
  | 414 => "Request URI Too Long"
  | 415 => "Unsupported Media Type"
  | 416 => "Requested Range Not Satisfiable"
  | 417 => "Expectation Failed"
  | 418 => "I\x27m a teapot"
  | 421 => "Misdirected Request"
  | 422 => "Unprocessable Entity"
  | 423 => "Locked"
  | 424 => "Failed Dependency"
  | 425 => "Too Early"
  | 426 => "Upgrade Required"
  | 428 => "Precondition Required"
  | 429 => "Too Many Requests"
  | 431 => "Request Header Fields Too Large"
  | 451 => "Unavailable For Legal Reasons"
  | 500 => "Internal Server Error"
  | 501 => "Not Implemented"
  | 502 => "Bad Gateway"
  | 503 => "Service Unavailable"
  | 504 => "Gateway Timeout"
  | 505 => "HTTP Version Not Supported"
  | 506 => "Variant Also Negotiates"
  | 507 => "Insufficient Storage"
  | 508 => "Loop Detected"
  | 510 => "Not Extended"
  | 511 => "Network Authentication Required"
  | _ => ""

/-! ### generateCacheKey (modesecurity_cache.go)

Each conditional hasher.Write is a byte segment; the cache key is the hex
rendering of the SHA-256 digest of the concatenated segments, in the fixed
order method, normalized URI, headers, host, remote address. -/

/-- Header contribution in match-all mode: every header name followed by
all of its values, in the iteration order of the header map. -/
def headerBytesAll (hs : List (String × List String)) : List Nat :=
  hs.foldl
    (fun acc kv => kv.2.foldl (fun a2 v => a2 ++ utf8Bytes v) (acc ++ utf8Bytes kv.1))
    []

/-- Header contribution in allow-list mode: only headers whose name is in
the configured list, each name followed by its values, in the iteration
order of the request header map. -/
def headerBytesAllowed (allowed : List String) (hs : List (String × List String)) :
    List Nat :=
  hs.foldl
    (fun acc kv =>
      if allowed.contains kv.1 then
        kv.2.foldl (fun a2 v => a2 ++ utf8Bytes v) (acc ++ utf8Bytes kv.1)
      else acc)
    []

def segMethod (req : HttpRequest) (options : CacheKeyOptions) : List Nat :=
  if optTrue options.IncludeMethod then utf8Bytes req.method else []

def segRequestURI (req : HttpRequest) (options : CacheKeyOptions) : List Nat :=
  if optTrue options.IncludeRequestURI then
    utf8Bytes (removeTrackingParams req.requestURI)
  else []

def segHeaders (req : HttpRequest) (options : CacheKeyOptions) : List Nat :=
  if optTrue options.IncludeHeaders then
    if optTrue options.MatchAllHeaders then headerBytesAll req.header
    else headerBytesAllowed options.Headers req.header
  else []

def segHost (req : HttpRequest) (options : CacheKeyOptions) : List Nat :=
  if optTrue options.IncludeHost then utf8Bytes req.host else []

def segRemoteAddr (req : HttpRequest) (options : CacheKeyOptions) : List Nat :=
  if optTrue options.IncludeRemoteAddress then utf8Bytes req.remoteAddr else []

/-- The byte stream written into the SHA-256 hasher by generateCacheKey. -/
def cacheKeyBytes (req : HttpRequest) (options : CacheKeyOptions) : List Nat :=
  segMethod req options ++ segRequestURI req options ++ segHeaders req options ++
    segHost req options ++ segRemoteAddr req options

/-- generateCacheKey: hex-rendered SHA-256 digest of the selected request
attributes. -/
def generateCacheKey (req : HttpRequest) (options : CacheKeyOptions) : String :=
  hexString (sha256 (cacheKeyBytes req options))

/-! ### Plugin state (Modsecurity struct, go-cache store, sync.Pool)

The go-cache store is an association list from key to the cached integer
status (expiry is outside the claims under verification, every lookup in
the model happens inside the TTL window).  The sync.Pool of synthesized
responses is a heap of response objects addressed by numeric identity plus
a free list; `evalCalls` counts the outbound httpClient.Do attempts and
`cacheReads` the cache.Get calls, so the theorems can observe them. -/

structure Modsecurity where
  modSecurityUrl : String
  maxBodySize : Int
  timeoutMillis : Int
  cacheEnabled : Bool
  cacheConditions : CacheKeyConditions
  cacheKey : CacheKeyOptions
deriving DecidableEq

/-- New (modsecurity.go): reject an empty service URL, default the
timeout when it is zero, copy the remaining configuration.  Note that
maxBodySize is copied verbatim, with no zero-means-default handling. -/
def New (config : Config) : Except String Modsecurity :=
  if config.ModSecurityUrl.length = 0 then
    Except.error "modSecurityUrl cannot be empty"
  else
    Except.ok
      { modSecurityUrl := config.ModSecurityUrl
        maxBodySize := config.MaxBodySize
        timeoutMillis := if config.TimeoutMillis = 0 then 2000 else config.TimeoutMillis
        cacheEnabled := config.CacheEnabled == some true
        cacheConditions := config.CacheConditions
        cacheKey := config.CacheKey }

structure ModsecState where
  cache : List (String × Nat)
  heap : Nat → HttpResponse
  nextId : Nat
  pool : List Nat
  evalCalls : Nat
  cacheReads : Nat

def initState : ModsecState where
  cache := []
  heap := fun _ => { statusCode := 0, header := [], body := "" }
  nextId := 0
  pool := []
  evalCalls := 0
  cacheReads := 0

def cacheGet (entries : List (String × Nat)) (k : String) : Option Nat :=
  (entries.find? (fun e => e.1 == k)).map (fun e => e.2)

def cacheSet (entries : List (String × Nat)) (k : String) (v : Nat) :
    List (String × Nat) :=
  (k, v) :: entries.filter (fun e => !(e.1 == k))

def heapSet (h : Nat → HttpResponse) (i : Nat) (r : HttpResponse) :
    Nat → HttpResponse :=
  fun j => if j = i then r else h j

/-- cacheResponsePool.Get: reuse a pooled object when available, otherwise
the pool New function allocates a fresh response with an empty header map.
(sync.Pool may drop objects at any time; the model determinizes it as a
free list, which is one of its allowed behaviors.) -/
def poolGet (st : ModsecState) : Nat × ModsecState :=
  match st.pool with
  | [] =>
    (st.nextId,
     { st with
        nextId := st.nextId + 1
        heap := heapSet st.heap st.nextId { statusCode := 0, header := [], body := "" } })
  | id :: rest => (id, { st with pool := rest })

/-- newPooledCacheResponse (modesecurity_cache.go): take a response from
the pool, set its status code and body, and set the Status-Text header to
the body when the body is non-empty, otherwise to http.StatusText of the
status code. -/
def newPooledCacheResponse (st : ModsecState) (statusCode : Nat) (body : String) :
    Nat × ModsecState :=
  let r := poolGet st
  let id := r.1
  let st2 := r.2
  let stText := if 0 < body.length then body else statusText statusCode
  let obj := st2.heap id
  let obj2 : HttpResponse :=
    { statusCode := statusCode
      body := body
      header := headerSet obj.header "Status-Text" stText }
  (id, { st2 with heap := heapSet st2.heap id obj2 })

/-- putResponse (modesecurity_cache.go): close the body (a NopCloser, so
the readable bytes are untouched), replace the header map by a fresh empty
one, and return the object to the pool. -/
def putResponse (st : ModsecState) (id : Nat) : ModsecState :=
  let obj := st.heap id
  { st with
      heap := heapSet st.heap id { obj with header := [] }
      pool := id :: st.pool }

/-! ### Request pipeline (modsecurity.go, modsecurity_handlers.go)

The outbound call to the evaluation service is abstracted by the per-call
oracle `evalSvc : Except Unit HttpResponse` (ok = the HTTP exchange
completed with that response; error = transport failure or timeout).
A response returned by the verdict pipeline is either a pooled object
(referenced by heap identity, `Sum.inl`) or the forwarded service response
itself (`Sum.inr`). -/

abbrev RespRef := Sum Nat HttpResponse

/-- Read a pipeline response at its point of use: a pooled reference is
dereferenced against the current heap, so any mutation the pool performed
before the read (such as the deferred putResponse) is observed. -/
def readResp (st : ModsecState) : RespRef → HttpResponse
  | Sum.inl id => st.heap id
  | Sum.inr r => r

/-- PrepareForwardedRequest (modsecurity.go): build the outbound request
(service URL concatenated with the request URI, original method, body and
headers) and perform httpClient.Do; on error, log and return the error.
The model records the call attempt and returns the oracle outcome. -/
def PrepareForwardedRequest (evalSvc : Except Unit HttpResponse)
    (st : ModsecState) : Except Unit HttpResponse × ModsecState :=
  let st2 := { st with evalCalls := st.evalCalls + 1 }
  match evalSvc with
  | Except.error e => (Except.error e, st2)
  | Except.ok resp => (Except.ok resp, st2)

/-- The forward-to-modsecurity step shared by the cache-disabled and
cache-ineligible branches of HandleCacheAndForwardRequest: propagate a
transport error, otherwise hand the service response up the chain. -/
def forwardToModsec (evalSvc : Except Unit HttpResponse) (st : ModsecState) :
    Except Unit RespRef × ModsecState :=
  match PrepareForwardedRequest evalSvc st with
  | (Except.error e, st2) => (Except.error e, st2)
  | (Except.ok resp, st2) => (Except.ok (Sum.inr resp), st2)

/-- GetCachedResponse (modesecurity_cache.go).  On a hit: reduce the cached
code modulo 1000, synthesize a pooled response whose body is the standard
status text, and (via the deferred putResponse, which runs before the
caller receives the value) release the object back to the pool.  On a
miss: forward to the service; on success store statusCode modulo 1000
under the key; on error cache nothing. -/
def GetCachedResponse (evalSvc : Except Unit HttpResponse) (st : ModsecState)
    (req : HttpRequest) (options : CacheKeyOptions) :
    Except Unit RespRef × ModsecState :=
  let cacheKey := generateCacheKey req options
  let st1 := { st with cacheReads := st.cacheReads + 1 }
  match cacheGet st1.cache cacheKey with
  | some cachedCode =>
    let statusCode := cachedCode % 1000
    let body := statusText statusCode
    let r := newPooledCacheResponse st1 statusCode body
    let st3 := putResponse r.2 r.1
    (Except.ok (Sum.inl r.1), st3)
  | none =>
    match PrepareForwardedRequest evalSvc st1 with
    | (Except.error e, st2) => (Except.error e, st2)
    | (Except.ok resp, st2) =>
      let cachedCode := resp.statusCode % 1000
      (Except.ok (Sum.inr resp),
       { st2 with cache := cacheSet st2.cache cacheKey cachedCode })

/-- HandleCacheAndForwardRequest (modsecurity_handlers.go): cache disabled
means forward immediately; an eligible request goes through the cache;
anything else is forwarded to the service directly. -/
def HandleCacheAndForwardRequest (a : Modsecurity)
    (evalSvc : Except Unit HttpResponse) (st : ModsecState) (req : HttpRequest) :
    Except Unit RespRef × ModsecState :=
  if !a.cacheEnabled then forwardToModsec evalSvc st
  else if a.cacheConditions.Check req then
    GetCachedResponse evalSvc st req a.cacheKey
  else forwardToModsec evalSvc st

/-- HandleRequestBodyMaxSize (modsecurity_handlers.go): read the body
through MaxBytesReader with limit maxBodySize + 1 and discard it; a body
longer than the limit makes the reader fail with the too-large error
(413 written); otherwise a measured length above maxBodySize also writes
413.  The result is the status written to the client, or none when the
body passed.  (The model reads the body as pure bytes; independent I/O
failures, which would write 502, are outside the embedded claims.) -/
def HandleRequestBodyMaxSize (a : Modsecurity) (req : HttpRequest) : Option Nat :=
  let n : Int := req.body.length
  if n > a.maxBodySize + 1 then some 413
  else if n > a.maxBodySize then some 413
  else none

/-- What the middleware terminally does for one request: invoke the
backend handler with the (unmodified) request, relay a verdict response to
the client, write a local error response, or return without writing
anything. -/
inductive Outcome where
  | backendInvoked (req : HttpRequest)
  | relayed (status : Nat) (header : List (String × List String)) (body : String)
  | errorWritten (status : Nat)
  | nothingWritten
deriving DecidableEq

/-- forwardResponse (modsecurity.go): copy the response headers, status
and body to the client unchanged. -/
def forwardResponse (resp : HttpResponse) : Outcome :=
  Outcome.relayed resp.statusCode resp.header resp.body

/-- ServeHTTP (modsecurity.go).  Websocket upgrades bypass everything.
Otherwise the body guard and the verdict pipeline both run (concurrently
in the source, joined before the checks; both tasks always run to
completion).  A body-guard failure has already written its error response;
a verdict-pipeline failure terminates the request with nothing written;
a verdict of 400 or above is relayed verbatim; anything else hands the
request to the backend. -/
def ServeHTTP (a : Modsecurity) (evalSvc : Except Unit HttpResponse)
    (st : ModsecState) (req : HttpRequest) : Outcome × ModsecState :=
  if isWebsocket req then (Outcome.backendInvoked req, st)
  else
    let reqErr := HandleRequestBodyMaxSize a req
    let r := HandleCacheAndForwardRequest a evalSvc st req
    let st2 := r.2
    match reqErr with
    | some status => (Outcome.errorWritten status, st2)
    | none =>
      match r.1 with
      | Except.error _ => (Outcome.nothingWritten, st2)
      | Except.ok ref =>
        let resp := readResp st2 ref
        if 400 ≤ resp.statusCode then (forwardResponse resp, st2)
        else (Outcome.backendInvoked req, st2)

/-! ### Concrete fixtures for counterexamples and witnesses -/

/-- A plugin instance with the documented default configuration and a
1024-byte body limit. -/
def waf : Modsecurity where
  modSecurityUrl := "http://waf:80"
  maxBodySize := 1024
  timeoutMillis := 2000
  cacheEnabled := true
  cacheConditions := CreateConfig.CacheConditions
  cacheKey := CreateConfig.CacheKey

/-- The same plugin with the verdict cache disabled. -/
def wafNoCache : Modsecurity := { waf with cacheEnabled := false }

/-- A plain cache-eligible GET request. -/
def getReq : HttpRequest where
  method := "GET"
  requestURI := "/website"
  header := []
  host := "example.com"
  remoteAddr := "10.0.0.1:34012"
  contentLength := 0
  body := []

/-- Key-composition options that include only the headers (allow-list
mode with the default allow-list). -/
def hdrOnlyOpts : CacheKeyOptions where
  IncludeMethod := some false
  IncludeRequestURI := some false
  IncludeHeaders := some true
  Headers := ["Authorization", "User-Agent", "Cache-Control"]
  MatchAllHeaders := some false
  IncludeHost := some false
  IncludeRemoteAddress := some false

/-- Two requests whose header maps are equal as maps but iterate in a
different order. -/
def reqHdrA : HttpRequest :=
  { getReq with
      header := [("Authorization", ["Bearer t1"]), ("User-Agent", ["curl/8"])] }

def reqHdrB : HttpRequest :=
  { getReq with
      header := [("User-Agent", ["curl/8"]), ("Authorization", ["Bearer t1"])] }

/-- Two header maps hold exactly the same associations (the map content is
identical; only the iteration order may differ). -/
def headerMapEquiv (h1 h2 : List (String × List String)) : Bool :=
  h1.all (fun kv => headerValues h2 kv.1 == kv.2) &&
    h2.all (fun kv => headerValues h1 kv.1 == kv.2)

/-- Whether an outcome delivers a 502-equivalent response to the client. -/
def writesBadGateway : Outcome → Bool
  | Outcome.errorWritten s => s == 502
  | Outcome.relayed s _ _ => s == 502
  | _ => false

/-- A POST request with a body one byte over the 1024-byte limit. -/
def bigPostReq : HttpRequest :=
  { getReq with
      method := "POST"
      contentLength := 1025
      body := List.replicate 1025 65 }

/-- A configuration with MaxBodySize set to zero (README: zero means use
the 10 MiB default). -/
def zeroBodyConfig : Config :=
  { CreateConfig with ModSecurityUrl := "http://waf:80", MaxBodySize := 0 }

/-- The plugin New builds from zeroBodyConfig. -/
def modZero : Modsecurity :=
  (New zeroBodyConfig).toOption.getD
    { modSecurityUrl := "", maxBodySize := -1, timeoutMillis := 0,
      cacheEnabled := false,
      cacheConditions := { Methods := [], NoBody := none },
      cacheKey :=
        { IncludeMethod := none, IncludeRequestURI := none, IncludeHeaders := none,
          Headers := [], MatchAllHeaders := none, IncludeHost := none,
          IncludeRemoteAddress := none } }

/-- A GET request carrying a one-byte body. -/
def oneByteReq : HttpRequest := { getReq with contentLength := 1, body := [65] }

/-- A 403 verdict response from the evaluation service. -/
def resp403 : HttpResponse where
  statusCode := 403
  header := [("Content-Type", ["text/html"])]
  body := "Blocked by WAF"

/-- A 200 pass response from the evaluation service. -/
def resp200 : HttpResponse where
  statusCode := 200
  header := []
  body := "OK from WAF"

/-- A websocket upgrade request. -/
def wsReq : HttpRequest :=
  { getReq with header := [("Upgrade", ["websocket"])], body := [1, 2, 3] }

/-! ### Helper lemmas shared by the claim theorems -/

theorem heapSet_same (h : Nat → HttpResponse) (i : Nat) (r : HttpResponse) :
    heapSet h i r i = r := by
  simp [heapSet]

theorem cacheGet_cacheSet_self (entries : List (String × Nat)) (k : String) (v : Nat) :
    cacheGet (cacheSet entries k v) k = some v := by
  simp [cacheGet, cacheSet]

theorem forwardToModsec_cache (e : Except Unit HttpResponse) (st : ModsecState) :
    (forwardToModsec e st).2.cache = st.cache := by
  cases e <;> rfl

theorem forwardToModsec_cacheReads (e : Except Unit HttpResponse) (st : ModsecState) :
    (forwardToModsec e st).2.cacheReads = st.cacheReads := by
  cases e <;> rfl

theorem forwardToModsec_evalCalls (e : Except Unit HttpResponse) (st : ModsecState) :
    (forwardToModsec e st).2.evalCalls = st.evalCalls + 1 := by
  cases e <;> rfl

/-- Cache-key congruence: the key depends only on the selected attributes,
taking the header contribution as the header sequence in iteration order. -/
theorem generateCacheKey_congr (r1 r2 : HttpRequest) (o : CacheKeyOptions)
    (hm : optTrue o.IncludeMethod = true → r1.method = r2.method)
    (hu : optTrue o.IncludeRequestURI = true →
      removeTrackingParams r1.requestURI = removeTrackingParams r2.requestURI)
    (hh : optTrue o.IncludeHeaders = true → r1.header = r2.header)
    (hhost : optTrue o.IncludeHost = true → r1.host = r2.host)
    (hra : optTrue o.IncludeRemoteAddress = true → r1.remoteAddr = r2.remoteAddr) :
    generateCacheKey r1 o = generateCacheKey r2 o := by
  have hbytes : cacheKeyBytes r1 o = cacheKeyBytes r2 o := by
    unfold cacheKeyBytes segMethod segRequestURI segHeaders segHost segRemoteAddr
    cases h1 : optTrue o.IncludeMethod <;>
      cases h2 : optTrue o.IncludeRequestURI <;>
        cases h3 : optTrue o.IncludeHeaders <;>
          cases h4 : optTrue o.IncludeHost <;>
            cases h5 : optTrue o.IncludeRemoteAddress <;>
              simp_all
  unfold generateCacheKey
  rw [hbytes]

/-! ### Sanity checks of the embedding -/

set_option maxRecDepth 100000 in
/-- The SHA-256 embedding matches the standard test vector for abc. -/
theorem sha256_test_vector_abc :
    hexString (sha256 (utf8Bytes "abc")) =
      "ba7816bf8f01cfea414140de5dae2223b00361a396177a9cb410ff61f20015ad" := by
  decide

set_option maxRecDepth 100000 in
/-- URL normalization: tracking parameters are removed, remaining
parameters are re-encoded with sorted keys, a query that becomes empty
loses its question mark, a URL without query is unchanged. -/
theorem removeTrackingParams_examples :
    removeTrackingParams "/website?test=1" = "/website?test=1" ∧
    removeTrackingParams "/website?fbclid=abc" = "/website" ∧
    removeTrackingParams "/website?b=2&a=1&gclid=xyz" = "/website?a=1&b=2" ∧
    removeTrackingParams "/website" = "/website" := by
  decide

set_option maxRecDepth 100000 in
/-- Scope and canonicalization checks of the URL model: a path that is
not a valid encoding is re-escaped canonically, as Go URL.String does
through EscapedPath; a URL with an authority (double slash) or with a
malformed percent escape is outside the parse-ok subset and passes
through unchanged, mirroring the fail-open branch. -/
theorem removeTrackingParams_scope_examples :
    removeTrackingParams "/a b?fbclid=1" = "/a%20b" ∧
    removeTrackingParams "/café?fbclid=1" = "/caf%C3%A9" ∧
    urlParseOk "//[::1/p?a=1" = false ∧
    removeTrackingParams "//[::1/p?fbclid=1&a=1" = "//[::1/p?fbclid=1&a=1" ∧
    removeTrackingParams "/p%zz?x=1" = "/p%zz?x=1" := by
  decide

/-! ### Claim theorems -/

/-- C9: a request carrying an Upgrade header with value websocket is
handed to the backend handler directly, with the request (body and
headers) unmodified, and the state is untouched: the body guard never
runs, the cache is neither read nor written, and the evaluation service
is never called. -/
theorem websocket_bypasses_everything (a : Modsecurity)
    (evalSvc : Except Unit HttpResponse) (st : ModsecState) (req : HttpRequest)
    (h : "websocket" ∈ headerValues req.header "Upgrade") :
    ServeHTTP a evalSvc st req = (Outcome.backendInvoked req, st) := by
  have hw : isWebsocket req = true := by
    unfold isWebsocket
    rw [List.any_eq_true]
    exact ⟨"websocket", h, by simp⟩
  unfold ServeHTTP
  rw [hw]
  simp

/-- C9 witness at a concrete websocket request. -/
theorem websocket_bypasses_everything_witness :
    ServeHTTP waf (Except.ok resp403) initState wsReq =
      (Outcome.backendInvoked wsReq, initState) :=
  websocket_bypasses_everything waf (Except.ok resp403) initState wsReq (by decide)

/-- C5: a request whose method is outside a non-empty eligible-methods
list bypasses the verdict cache entirely: the pipeline equals the direct
forward to the evaluation service, and neither a cache read nor a cache
write happens, whatever the prior cache contents. -/
theorem ineligible_method_bypasses_cache (a : Modsecurity)
    (evalSvc : Except Unit HttpResponse) (st : ModsecState) (req : HttpRequest)
    (hne : a.cacheConditions.Methods ≠ [])
    (hnm : containsStr a.cacheConditions.Methods req.method = false) :
    HandleCacheAndForwardRequest a evalSvc st req = forwardToModsec evalSvc st ∧
    (HandleCacheAndForwardRequest a evalSvc st req).2.cache = st.cache ∧
    (HandleCacheAndForwardRequest a evalSvc st req).2.cacheReads = st.cacheReads := by
  have hchk : a.cacheConditions.Check req = false := by
    unfold CacheKeyConditions.Check
    have hlen : 0 < a.cacheConditions.Methods.length := List.length_pos.mpr hne
    simp [hnm, hlen]
  have hmain : HandleCacheAndForwardRequest a evalSvc st req =
      forwardToModsec evalSvc st := by
    unfold HandleCacheAndForwardRequest
    cases hce : a.cacheEnabled <;> simp [hchk]
  exact ⟨hmain, by rw [hmain]; exact forwardToModsec_cache evalSvc st,
         by rw [hmain]; exact forwardToModsec_cacheReads evalSvc st⟩

/-- C5 witness: a POST request against the default GET-only condition,
with a non-empty cache in place. -/
theorem ineligible_method_bypasses_cache_witness :
    HandleCacheAndForwardRequest waf (Except.ok resp200)
        { initState with cache := [("somekey", 403)] } bigPostReq =
      forwardToModsec (Except.ok resp200) { initState with cache := [("somekey", 403)] } ∧
    (HandleCacheAndForwardRequest waf (Except.ok resp200)
        { initState with cache := [("somekey", 403)] } bigPostReq).2.cache =
      ({ initState with cache := [("somekey", 403)] } : ModsecState).cache ∧
    (HandleCacheAndForwardRequest waf (Except.ok resp200)
        { initState with cache := [("somekey", 403)] } bigPostReq).2.cacheReads =
      ({ initState with cache := [("somekey", 403)] } : ModsecState).cacheReads :=
  ineligible_method_bypasses_cache waf (Except.ok resp200)
    { initState with cache := [("somekey", 403)] } bigPostReq
    (by decide) (by decide)

set_option maxRecDepth 1000000 in
/-- C1 counterexample: two requests that agree on every attribute selected
by the options (the header maps hold exactly the same associations) but
whose header maps iterate in a different order produce different cache
keys, already in allow-list mode.  This refutes the claim that the key is
independent of the header iteration order. -/
theorem cacheKey_header_order_counterexample :
    reqHdrA.method = reqHdrB.method ∧
    reqHdrA.requestURI = reqHdrB.requestURI ∧
    reqHdrA.host = reqHdrB.host ∧
    reqHdrA.remoteAddr = reqHdrB.remoteAddr ∧
    headerMapEquiv reqHdrA.header reqHdrB.header = true ∧
    generateCacheKey reqHdrA hdrOnlyOpts ≠ generateCacheKey reqHdrB hdrOnlyOpts := by
  decide

/-- C1 amended: requests with identical values across the attributes
selected by the active key-composition options produce the same cache
key, provided the header collections are iterated in the same order
(equal as sequences) when headers are included. -/
theorem cacheKey_deterministic (r1 r2 : HttpRequest) (o : CacheKeyOptions)
    (hm : optTrue o.IncludeMethod = true → r1.method = r2.method)
    (hu : optTrue o.IncludeRequestURI = true →
      removeTrackingParams r1.requestURI = removeTrackingParams r2.requestURI)
    (hh : optTrue o.IncludeHeaders = true → r1.header = r2.header)
    (hhost : optTrue o.IncludeHost = true → r1.host = r2.host)
    (hra : optTrue o.IncludeRemoteAddress = true → r1.remoteAddr = r2.remoteAddr) :
    generateCacheKey r1 o = generateCacheKey r2 o :=
  generateCacheKey_congr r1 r2 o hm hu hh hhost hra

set_option maxRecDepth 1000000 in
/-- C1 amended witness: two concrete requests that differ only in an
unselected attribute (remote address) and in a tracking query parameter
get the same key under the default options. -/
theorem cacheKey_deterministic_witness :
    generateCacheKey
        { getReq with requestURI := "/site?a=1&fbclid=xyz", remoteAddr := "10.9.9.9:1" }
        CreateConfig.CacheKey =
      generateCacheKey { getReq with requestURI := "/site?a=1" } CreateConfig.CacheKey :=
  cacheKey_deterministic
    { getReq with requestURI := "/site?a=1&fbclid=xyz", remoteAddr := "10.9.9.9:1" }
    { getReq with requestURI := "/site?a=1" } CreateConfig.CacheKey
    (by decide) (by decide) (by decide) (by decide) (by decide)

/-- C2: for a non-upgrade request that passes the body guard and whose
verdict pipeline succeeds, a response of status 400 or above is relayed
verbatim (status, headers and body, exactly as readable on the response
object) and the outcome is that relay, so the backend handler is not
invoked; a status below 400 hands the request to the backend, so the
verdict body is never written to the client. -/
theorem verdict_status_branching (a : Modsecurity)
    (evalSvc : Except Unit HttpResponse) (st : ModsecState) (req : HttpRequest)
    (ref : RespRef) (st2 : ModsecState)
    (hws : isWebsocket req = false)
    (hguard : HandleRequestBodyMaxSize a req = none)
    (hrun : HandleCacheAndForwardRequest a evalSvc st req = (Except.ok ref, st2)) :
    ServeHTTP a evalSvc st req =
      (if 400 ≤ (readResp st2 ref).statusCode then
        Outcome.relayed (readResp st2 ref).statusCode (readResp st2 ref).header
          (readResp st2 ref).body
       else Outcome.backendInvoked req, st2) := by
  unfold ServeHTTP
  rw [hws]
  simp only [Bool.false_eq_true, if_false, hguard, hrun, forwardResponse]
  split <;> rfl

/-- C2 witness: with the cache disabled and a concrete 403 verdict, the
verdict is relayed with its status, headers and body. -/
theorem verdict_status_branching_witness :
    ServeHTTP wafNoCache (Except.ok resp403) initState getReq =
      (if 400 ≤ (readResp { initState with evalCalls := 1 } (Sum.inr resp403)).statusCode then
        Outcome.relayed
          (readResp { initState with evalCalls := 1 } (Sum.inr resp403)).statusCode
          (readResp { initState with evalCalls := 1 } (Sum.inr resp403)).header
          (readResp { initState with evalCalls := 1 } (Sum.inr resp403)).body
       else Outcome.backendInvoked getReq, { initState with evalCalls := 1 }) :=
  verdict_status_branching wafNoCache (Except.ok resp403) initState getReq
    (Sum.inr resp403) { initState with evalCalls := 1 } (by decide) (by decide) rfl

/-- C3 counterexample: a concrete eligible request on which the
evaluation-service call fails with a transport error.  ServeHTTP returns
without writing anything at all — in particular no 502-equivalent is
delivered to the client (the claim asserts one is), though the backend is
indeed not invoked and the cache stays empty. -/
theorem eval_failure_no_502_counterexample :
    (ServeHTTP waf (Except.error ()) initState getReq).1 = Outcome.nothingWritten ∧
    writesBadGateway (ServeHTTP waf (Except.error ()) initState getReq).1 = false ∧
    (ServeHTTP waf (Except.error ()) initState getReq).2.cache = [] ∧
    (ServeHTTP waf (Except.error ()) initState getReq).2.evalCalls = 1 := by
  refine ⟨rfl, rfl, rfl, rfl⟩

/-- C3 amended: when the evaluation-service call fails for a non-upgrade
request that passed the body guard, the backend handler is never invoked
and no verdict entry is written to the cache; however the plugin writes no
response at all (no 502-equivalent is synthesized — ServeHTTP simply
returns). -/
theorem eval_failure_behavior (a : Modsecurity) (st st2 : ModsecState)
    (req : HttpRequest) (u : Unit)
    (hws : isWebsocket req = false)
    (hguard : HandleRequestBodyMaxSize a req = none)
    (hfail : HandleCacheAndForwardRequest a (Except.error ()) st req =
      (Except.error u, st2)) :
    ServeHTTP a (Except.error ()) st req = (Outcome.nothingWritten, st2) ∧
    st2.cache = st.cache := by
  constructor
  · unfold ServeHTTP
    rw [hws]
    simp only [Bool.false_eq_true, if_false, hguard, hfail]
  · -- an error result can only come out of a direct forward or a cache
    -- miss, and neither branch writes to the cache
    unfold HandleCacheAndForwardRequest at hfail
    by_cases hce : a.cacheEnabled
    · rw [hce] at hfail
      simp only [Bool.not_true, Bool.false_eq_true, if_false] at hfail
      by_cases hchk : a.cacheConditions.Check req
      · rw [if_pos hchk] at hfail
        unfold GetCachedResponse at hfail
        dsimp only at hfail
        cases hhit : cacheGet st.cache (generateCacheKey req a.cacheKey) with
        | some v =>
          rw [hhit] at hfail
          dsimp only at hfail
          simp at hfail
        | none =>
          rw [hhit] at hfail
          unfold PrepareForwardedRequest at hfail
          dsimp only at hfail
          injection hfail with h1 h2
          rw [← h2]
      · rw [if_neg hchk] at hfail
        unfold forwardToModsec PrepareForwardedRequest at hfail
        dsimp only at hfail
        injection hfail with h1 h2
        rw [← h2]
    · rw [show a.cacheEnabled = false from by simpa using hce] at hfail
      simp only [Bool.not_false, if_true] at hfail
      unfold forwardToModsec PrepareForwardedRequest at hfail
      dsimp only at hfail
      injection hfail with h1 h2
      rw [← h2]

/-- C3 amended witness at the concrete failing call. -/
theorem eval_failure_behavior_witness :
    ServeHTTP wafNoCache (Except.error ()) initState getReq =
      (Outcome.nothingWritten, { initState with evalCalls := 1 }) ∧
    ({ initState with evalCalls := 1 } : ModsecState).cache = initState.cache :=
  eval_failure_behavior wafNoCache initState { initState with evalCalls := 1 } getReq ()
    (by decide) (by decide) rfl

set_option maxRecDepth 1000000 in
/-- C4 counterexample: a non-upgrade POST request with a body of
maxBodySize + 1 bytes is rejected with the 413 error, but — contrary to
the claim — the evaluation service IS called for that request: the body
guard and the verdict pipeline run concurrently and the pipeline always
runs to completion, so the forwarded call is attempted regardless of the
guard's verdict. -/
theorem body_too_large_still_calls_eval_counterexample :
    (bigPostReq.body.length : Int) = waf.maxBodySize + 1 ∧
    (ServeHTTP waf (Except.ok resp200) initState bigPostReq).1 =
      Outcome.errorWritten 413 ∧
    (ServeHTTP waf (Except.ok resp200) initState bigPostReq).2.evalCalls = 1 := by
  refine ⟨by decide, rfl, rfl⟩

/-- C4 amended: a body of exactly maxBodySize bytes passes the body
guard; a body of maxBodySize + 1 bytes fails it with the 413 too-large
error, which is what the client receives; however the evaluation service
is still called concurrently for the rejected request whenever the
verdict pipeline does not hit the cache (here: a cache-ineligible
request), its verdict being discarded. -/
theorem body_size_boundary (a : Modsecurity) (evalSvc : Except Unit HttpResponse)
    (st : ModsecState) (req big : HttpRequest)
    (hexact : (req.body.length : Int) = a.maxBodySize)
    (hws : isWebsocket big = false)
    (hbig : (big.body.length : Int) = a.maxBodySize + 1)
    (hchk : a.cacheConditions.Check big = false) :
    HandleRequestBodyMaxSize a req = none ∧
    HandleRequestBodyMaxSize a big = some 413 ∧
    (ServeHTTP a evalSvc st big).1 = Outcome.errorWritten 413 ∧
    (ServeHTTP a evalSvc st big).2.evalCalls = st.evalCalls + 1 := by
  have hok : HandleRequestBodyMaxSize a req = none := by
    unfold HandleRequestBodyMaxSize
    rw [hexact]
    have h1 : ¬(a.maxBodySize > a.maxBodySize + 1) := by omega
    have h2 : ¬(a.maxBodySize > a.maxBodySize) := by omega
    simp [h1, h2]
  have hbad : HandleRequestBodyMaxSize a big = some 413 := by
    unfold HandleRequestBodyMaxSize
    rw [hbig]
    have h1 : ¬(a.maxBodySize + 1 > a.maxBodySize + 1) := by omega
    have h2 : a.maxBodySize + 1 > a.maxBodySize := by omega
    simp [h1, h2]
  have hfwd : HandleCacheAndForwardRequest a evalSvc st big =
      forwardToModsec evalSvc st := by
    unfold HandleCacheAndForwardRequest
    cases hce : a.cacheEnabled <;> simp [hchk]
  have hserve1 : (ServeHTTP a evalSvc st big).1 = Outcome.errorWritten 413 := by
    unfold ServeHTTP
    rw [hws]
    simp only [Bool.false_eq_true, if_false, hbad, hfwd]
  have hserve2 : (ServeHTTP a evalSvc st big).2.evalCalls = st.evalCalls + 1 := by
    unfold ServeHTTP
    rw [hws]
    simp only [Bool.false_eq_true, if_false, hbad, hfwd]
    exact forwardToModsec_evalCalls evalSvc st
  exact ⟨hok, hbad, hserve1, hserve2⟩

set_option maxRecDepth 1000000 in
/-- C4 amended witness: the 1024-byte boundary of the fixture plugin,
with concrete requests of 1024 and 1025 body bytes. -/
theorem body_size_boundary_witness :
    HandleRequestBodyMaxSize waf
        { getReq with contentLength := 1024, body := List.replicate 1024 65 } = none ∧
    HandleRequestBodyMaxSize waf bigPostReq = some 413 ∧
    (ServeHTTP waf (Except.ok resp200) initState bigPostReq).1 =
      Outcome.errorWritten 413 ∧
    (ServeHTTP waf (Except.ok resp200) initState bigPostReq).2.evalCalls =
      initState.evalCalls + 1 :=
  body_size_boundary waf (Except.ok resp200) initState
    { getReq with contentLength := 1024, body := List.replicate 1024 65 } bigPostReq
    (by decide) (by decide) (by decide) (by decide)

/-- C8: the claim (and the repository README) says a configured max body
size of zero means the 10 MiB default applies; in the code New copies the
zero verbatim, so the effective ceiling is 0 bytes: a one-byte body — far
below 10 MiB — is already rejected with 413. -/
theorem maxBodySize_zero_is_not_defaulted :
    (New zeroBodyConfig).toOption = some modZero ∧
    modZero.maxBodySize = 0 ∧
    HandleRequestBodyMaxSize modZero oneByteReq = some 413 ∧
    (oneByteReq.body.length : Int) ≤ 10 * 1024 * 1024 ∧
    CreateConfig.MaxBodySize = 10 * 1024 * 1024 := by
  refine ⟨rfl, rfl, rfl, by decide, rfl⟩

/-- Helper: a cache miss with a successful service call forwards the
service response, bumps the read and call counters, and stores the status
code modulo 1000 under the key. -/
theorem getCached_miss_forward (evalResp : HttpResponse) (st : ModsecState)
    (req : HttpRequest) (o : CacheKeyOptions)
    (hmiss : cacheGet st.cache (generateCacheKey req o) = none) :
    GetCachedResponse (Except.ok evalResp) st req o =
      (Except.ok (Sum.inr evalResp),
       { st with
          cacheReads := st.cacheReads + 1
          evalCalls := st.evalCalls + 1
          cache := cacheSet st.cache (generateCacheKey req o)
            (evalResp.statusCode % 1000) }) := by
  unfold GetCachedResponse PrepareForwardedRequest
  dsimp only
  rw [hmiss]

/-- Helper: a cache hit synthesizes a pooled response carrying the cached
status (modulo 1000) and the standard status text as body, and — because
the deferred putResponse runs before the caller resumes — by the time the
caller can look at the object its header map is empty and the object is
back in the pool; the cache and the call counter are untouched. -/
theorem getCached_hit_spec (evalSvc : Except Unit HttpResponse) (st : ModsecState)
    (req : HttpRequest) (o : CacheKeyOptions) (v : Nat)
    (hhit : cacheGet st.cache (generateCacheKey req o) = some v) :
    ∃ id st3,
      GetCachedResponse evalSvc st req o = (Except.ok (Sum.inl id), st3) ∧
      (st3.heap id).statusCode = v % 1000 ∧
      (st3.heap id).body = statusText (v % 1000) ∧
      (st3.heap id).header = [] ∧
      id ∈ st3.pool ∧
      st3.cache = st.cache ∧
      st3.evalCalls = st.evalCalls ∧
      st3.cacheReads = st.cacheReads + 1 := by
  unfold GetCachedResponse
  dsimp only
  rw [hhit]
  unfold newPooledCacheResponse putResponse poolGet
  cases hp : st.pool with
  | nil =>
    refine ⟨st.nextId, _, rfl, ?_, ?_, ?_, ?_, rfl, rfl, rfl⟩ <;>
      simp [heapSet_same, heapSet]
  | cons id rest =>
    refine ⟨id, _, rfl, ?_, ?_, ?_, ?_, rfl, rfl, rfl⟩ <;>
      simp [heapSet_same, heapSet]

/-- C10: on every cache hit, GetCachedResponse returns a pooled response
object that the deferred putResponse has already released: at the point
of return its header map has been replaced by an empty one (the
Status-Text header set during synthesis is gone) and the object sits in
the shared pool, available for reuse by other requests. -/
theorem cache_hit_response_already_released (evalSvc : Except Unit HttpResponse)
    (st : ModsecState) (req : HttpRequest) (o : CacheKeyOptions) (v : Nat)
    (hhit : cacheGet st.cache (generateCacheKey req o) = some v) :
    ∃ id st3,
      GetCachedResponse evalSvc st req o = (Except.ok (Sum.inl id), st3) ∧
      (st3.heap id).header = [] ∧
      headerValues (st3.heap id).header "Status-Text" = [] ∧
      id ∈ st3.pool := by
  obtain ⟨id, st3, h1, _, _, h4, h5, _, _, _⟩ :=
    getCached_hit_spec evalSvc st req o v hhit
  exact ⟨id, st3, h1, h4, by rw [h4]; rfl, h5⟩

/-- C10 witness: a concrete hit against a pre-populated cache entry for
the fixture GET request. -/
theorem cache_hit_response_already_released_witness :
    ∃ id st3,
      GetCachedResponse (Except.ok resp200)
          { initState with cache := [(generateCacheKey getReq waf.cacheKey, 403)] }
          getReq waf.cacheKey = (Except.ok (Sum.inl id), st3) ∧
      (st3.heap id).header = [] ∧
      headerValues (st3.heap id).header "Status-Text" = [] ∧
      id ∈ st3.pool :=
  cache_hit_response_already_released (Except.ok resp200)
    { initState with cache := [(generateCacheKey getReq waf.cacheKey, 403)] }
    getReq waf.cacheKey 403 (by simp [cacheGet])

/-- C6: two sequential cache-eligible requests with the same attributes
(modelled as the same request value), starting from a cache with no entry
for their key: the evaluation service is called exactly once across both
requests; the second request is answered from the cache with the first
response's status code, and its body is the standard textual phrase for
that status code (the first response's body is not retained). -/
theorem second_request_served_from_cache (a : Modsecurity) (req : HttpRequest)
    (resp1 : HttpResponse) (evalSvc2 : Except Unit HttpResponse) (st0 : ModsecState)
    (hen : a.cacheEnabled = true)
    (hchk : a.cacheConditions.Check req = true)
    (hmiss : cacheGet st0.cache (generateCacheKey req a.cacheKey) = none)
    (hcode : resp1.statusCode < 1000) :
    ∃ st1 st2 id,
      HandleCacheAndForwardRequest a (Except.ok resp1) st0 req =
        (Except.ok (Sum.inr resp1), st1) ∧
      HandleCacheAndForwardRequest a evalSvc2 st1 req =
        (Except.ok (Sum.inl id), st2) ∧
      st1.evalCalls = st0.evalCalls + 1 ∧
      st2.evalCalls = st0.evalCalls + 1 ∧
      (st2.heap id).statusCode = resp1.statusCode ∧
      (st2.heap id).body = statusText resp1.statusCode := by
  have hunfold : ∀ (e : Except Unit HttpResponse) (st : ModsecState),
      HandleCacheAndForwardRequest a e st req = GetCachedResponse e st req a.cacheKey := by
    intro e st
    unfold HandleCacheAndForwardRequest
    rw [hen, hchk]
    simp
  have hmod : resp1.statusCode % 1000 = resp1.statusCode := Nat.mod_eq_of_lt hcode
  have hrun1 := getCached_miss_forward resp1 st0 req a.cacheKey hmiss
  set st1 : ModsecState :=
    { st0 with
        cacheReads := st0.cacheReads + 1
        evalCalls := st0.evalCalls + 1
        cache := cacheSet st0.cache (generateCacheKey req a.cacheKey)
          (resp1.statusCode % 1000) } with hst1
  have hhit : cacheGet st1.cache (generateCacheKey req a.cacheKey) =
      some (resp1.statusCode % 1000) := by
    rw [hst1]
    exact cacheGet_cacheSet_self st0.cache (generateCacheKey req a.cacheKey)
      (resp1.statusCode % 1000)
  obtain ⟨id, st2, h1, h2, h3, _, _, _, hcalls, _⟩ :=
    getCached_hit_spec evalSvc2 st1 req a.cacheKey (resp1.statusCode % 1000) hhit
  refine ⟨st1, st2, id, ?_, ?_, rfl, ?_, ?_, ?_⟩
  · rw [hunfold]
    exact hrun1
  · rw [hunfold]
    exact h1
  · rw [hcalls]
  · rw [h2, Nat.mod_mod_of_dvd _ (dvd_refl 1000), hmod]
  · rw [h3, Nat.mod_mod_of_dvd _ (dvd_refl 1000), hmod]

/-- C6 witness: the fixture GET request evaluated twice against an empty
initial cache with a concrete 403 first verdict. -/
theorem second_request_served_from_cache_witness :
    ∃ st1 st2 id,
      HandleCacheAndForwardRequest waf (Except.ok resp403) initState getReq =
        (Except.ok (Sum.inr resp403), st1) ∧
      HandleCacheAndForwardRequest waf (Except.ok resp200) st1 getReq =
        (Except.ok (Sum.inl id), st2) ∧
      st1.evalCalls = initState.evalCalls + 1 ∧
      st2.evalCalls = initState.evalCalls + 1 ∧
      (st2.heap id).statusCode = resp403.statusCode ∧
      (st2.heap id).body = statusText resp403.statusCode :=
  second_request_served_from_cache waf getReq resp403 (Except.ok resp200) initState
    (by decide) (by decide) rfl (by decide)

/-- Helper: two URLs that parse successfully, agree on path, fragment and
bare-question-mark form, and whose query pairs agree after removal of all
tracking parameters, normalize to the same string. -/
theorem removeTrackingParams_congr (u1 u2 : String)
    (hok1 : urlParseOk u1 = true) (hok2 : urlParseOk u2 = true)
    (hpath : rawPathOf u1 = rawPathOf u2)
    (hfrag : fragOf u1 = fragOf u2)
    (hforce : (rawQueryOf u1 == some "") = (rawQueryOf u2 == some ""))
    (hq : keptPairs u1 = keptPairs u2) :
    removeTrackingParams u1 = removeTrackingParams u2 := by
  unfold removeTrackingParams
  rw [hok1, hok2]
  dsimp only
  rw [hpath, hfrag, hforce, hq]
  simp

/-- C7: two requests that differ only in the presence or value of
tracking query parameters (same path, fragment and bare-question-mark
form, same query pairs once every tracking parameter is deleted; all
other attributes equal) derive the same cache key when the request URI is
included in the key. -/
theorem tracking_params_do_not_change_key (r1 r2 : HttpRequest)
    (o : CacheKeyOptions)
    (_huri : optTrue o.IncludeRequestURI = true)
    (hm : r1.method = r2.method) (hh : r1.header = r2.header)
    (hhost : r1.host = r2.host) (hra : r1.remoteAddr = r2.remoteAddr)
    (hok1 : urlParseOk r1.requestURI = true)
    (hok2 : urlParseOk r2.requestURI = true)
    (hpath : rawPathOf r1.requestURI = rawPathOf r2.requestURI)
    (hfrag : fragOf r1.requestURI = fragOf r2.requestURI)
    (hforce : (rawQueryOf r1.requestURI == some "") =
      (rawQueryOf r2.requestURI == some ""))
    (hq : keptPairs r1.requestURI = keptPairs r2.requestURI) :
    generateCacheKey r1 o = generateCacheKey r2 o :=
  generateCacheKey_congr r1 r2 o (fun _ => hm)
    (fun _ => removeTrackingParams_congr r1.requestURI r2.requestURI
      hok1 hok2 hpath hfrag hforce hq)
    (fun _ => hh) (fun _ => hhost) (fun _ => hra)

set_option maxRecDepth 1000000 in
/-- C7 witness: a concrete pair differing only in an fbclid tracking
parameter, under the default key options (URI included). -/
theorem tracking_params_do_not_change_key_witness :
    generateCacheKey { getReq with requestURI := "/product?fbclid=tracker123&id=42" }
        CreateConfig.CacheKey =
      generateCacheKey { getReq with requestURI := "/product?id=42" }
        CreateConfig.CacheKey :=
  tracking_params_do_not_change_key
    { getReq with requestURI := "/product?fbclid=tracker123&id=42" }
    { getReq with requestURI := "/product?id=42" } CreateConfig.CacheKey
    (by decide) (by decide) (by decide) (by decide) (by decide)
    (by decide) (by decide) (by decide) (by decide) (by decide) (by decide)

end ModsecPlugin
